import Mathlib

/-!
# Shallow embedding of `src/parse/properties/margin.c` (libcss)

The file under verification contains `parse_margin_side` and its four public
wrappers `parse_margin_top`, `parse_margin_right`, `parse_margin_bottom`,
`parse_margin_left`.  External collaborators (the parserutils vector, the
interning table, `parse_unit_specifier`, `buildOPV` and the bytecode header
constants, and `css_stylesheet_style_create`) live outside the given source
tree; they are modelled from the specification, as marked on each definition.

C state threading is made explicit: the `int *ctx` cursor becomes an input
`Nat` plus an output `Nat` field, `css_style **result` becomes an
`Option css_style` output field (`none` = the caller's location was never
written), and the single allocation request made to the stylesheet allocator
is recorded in an `Option Nat` field so that claims about the requested size
and about "no allocation was attempted" are statable.
-/

/-- Error codes of libcss (`css_error`).  The source file returns `CSS_OK`,
`CSS_NOMEM` and `CSS_INVALID` and propagates codes of its collaborators. -/
inductive css_error where
  | CSS_OK
  | CSS_NOMEM
  | CSS_BADPARM
  | CSS_INVALID
  | CSS_FILENOTFOUND
  | CSS_NEEDDATA
  | CSS_BADCHARSET
  | CSS_EOF
  deriving DecidableEq, Repr

/-- Token kinds relevant to this property family (identifier, dimension,
percentage, number, anything else). -/
inductive css_token_type where
  | CSS_TOKEN_IDENT
  | CSS_TOKEN_NUMBER
  | CSS_TOKEN_PERCENTAGE
  | CSS_TOKEN_DIMENSION
  | CSS_TOKEN_OTHER
  deriving DecidableEq, Repr

/-- A lexical token: its kind and its interned, case-folded handle
(`token->ilower`), modelled as a natural number naming the interned string. -/
structure css_token where
  type : css_token_type
  ilower : Nat
  deriving DecidableEq, Repr

/-- Indices into the language's interned-string table that this source file
consults (`c->strings[INHERIT]`, `c->strings[AUTO]`). -/
inductive LangString where
  | INHERIT
  | AUTO
  deriving DecidableEq

/-- Fixed-point magnitude (`css_fixed`, a 32-bit scaled integer). -/
abbrev css_fixed := Int

/-- Modelled from the spec: flag bit marking an inherited value in the
instruction header (`FLAG_INHERIT` of bytecode.h, outside src/). -/
def FLAG_INHERIT : Nat := 2

/-- Modelled from the spec: value-tag for a margin given as a quantity
(`MARGIN_SET` of opcodes.h, outside src/). -/
def MARGIN_SET : Nat := 0x0080

/-- Modelled from the spec: value-tag for the `auto` keyword
(`MARGIN_AUTO` of opcodes.h, outside src/). -/
def MARGIN_AUTO : Nat := 0x0000

/-- Modelled from the spec: unit code for pixels, the default unit for bare
numbers in this property family (`UNIT_PX` of bytecode.h, outside src/). -/
def UNIT_PX : Nat := 0

/-- Modelled from the spec: unit-class bit for percentages. -/
def UNIT_PCT : Nat := 1 <<< 8

/-- Modelled from the spec: unit-class bit for angle units. -/
def UNIT_ANGLE : Nat := 1 <<< 9

/-- Modelled from the spec: unit-class bit for time units. -/
def UNIT_TIME : Nat := 1 <<< 10

/-- Modelled from the spec: unit-class bit for frequency units. -/
def UNIT_FREQ : Nat := 1 <<< 11

/-- Modelled from the spec: property opcode of margin-top (opcodes.h). -/
def CSS_PROP_MARGIN_TOP : Nat := 0x58

/-- Modelled from the spec: property opcode of margin-right (opcodes.h). -/
def CSS_PROP_MARGIN_RIGHT : Nat := 0x57

/-- Modelled from the spec: property opcode of margin-bottom (opcodes.h). -/
def CSS_PROP_MARGIN_BOTTOM : Nat := 0x55

/-- Modelled from the spec: property opcode of margin-left (opcodes.h). -/
def CSS_PROP_MARGIN_LEFT : Nat := 0x56

/-- `sizeof(opv)`: the header word is a `uint32_t`, four bytes. -/
def sizeof_opv : Nat := 4

/-- `sizeof(length)`: a `css_fixed` magnitude is four bytes. -/
def sizeof_length : Nat := 4

/-- `sizeof(unit)`: a `uint32_t` unit code is four bytes. -/
def sizeof_unit : Nat := 4

/-- Modelled from the spec: `buildOPV` (bytecode.h, outside src/) packs
(opcode, flags, value-tag) into disjoint bit fields of one 32-bit header
word: opcode in bits 0-9, flags in bits 10-17, value in bits 18-31. -/
def buildOPV (op flags value : Nat) : Nat :=
  op % 1024 + (flags % 256) * 1024 + (value % 16384) * 262144

/-- Modelled from the spec: `getFlags` (bytecode.h) extracts the flags byte
from a header word. -/
def getFlags (opv : Nat) : Nat := opv / 1024 % 256

/-- Modelled from the spec: `getValue` (bytecode.h) extracts the value-tag
from a header word. -/
def getValue (opv : Nat) : Nat := opv / 262144

/-- Modelled from the spec: `getOpcode` (bytecode.h) extracts the property
opcode from a header word. -/
def getOpcode (opv : Nat) : Nat := opv % 1024

/-- Modelled from the spec: `isInherit` (bytecode.h) tests the inherit flag
bit of a header word. -/
def isInherit (opv : Nat) : Bool := getFlags opv &&& FLAG_INHERIT != 0

/-- Little-endian byte image of one 32-bit word, as written by `memcpy` of a
`uint32_t` into the bytecode buffer. -/
def toBytes4 (x : Nat) : List Nat :=
  [x % 256, x / 256 % 256, x / 65536 % 256, x / 16777216 % 256]

/-- Byte image of a `css_fixed` (32-bit two's-complement). -/
def fixedBytes (l : css_fixed) : List Nat :=
  toBytes4 (l % (2 ^ 32 : Int)).toNat

/-- Reads back the 32-bit word at the start of a bytecode buffer. -/
def fromBytes4 : List Nat → Nat
  | b0 :: b1 :: b2 :: b3 :: _ =>
      b0 % 256 + b1 % 256 * 256 + b2 % 256 * 65536 + b3 % 256 * 16777216
  | _ => 0

/-- A compiled style: the emitted bytecode buffer (`css_style`), one byte per
list entry. -/
structure css_style where
  bytecode : List Nat
  deriving DecidableEq, Repr

/-- The parsing context of the source file.  `strings` is the interning
table consulted for keyword matching; `sheet_alloc` models
`css_stylesheet_style_create` on `c->sheet` (Modelled from the spec: the
allocator answers one exactly-sized request with an error code, `CSS_OK`
meaning the buffer exists); `parse_unit_specifier` models the generic
numeric/unit sub-parser (Modelled from the spec: given the vector, the
cursor and a default unit it returns an error code, the new cursor, the
fixed-point magnitude and the unit-class bitmask; it may consume several
tokens on success and restores its own advances on failure). -/
structure css_language where
  strings : LangString → Nat
  sheet_alloc : Nat → css_error
  parse_unit_specifier :
    List css_token → Nat → Nat → css_error × Nat × css_fixed × Nat

/-- Modelled from the spec: `parserutils_vector_peek` returns the token at
the iteration context without consuming it, or nothing past the end. -/
def parserutils_vector_peek (vector : List css_token) (ctx : Nat) :
    Option css_token :=
  vector.get? ctx

/-- Modelled from the spec: `parserutils_vector_iterate` consumes one token,
returning it and the advanced iteration context (unchanged at the end). -/
def parserutils_vector_iterate (vector : List css_token) (ctx : Nat) :
    Option css_token × Nat :=
  match vector.get? ctx with
  | none => (none, ctx)
  | some t => (some t, ctx + 1)

/-- Observable outcome of one call of `parse_margin_side`: the returned
error code, the final `*ctx`, the written `*result` (`none` = the caller's
location was never written), and the size of the single allocation request
made to the stylesheet allocator (`none` = no allocation was attempted). -/
structure parse_result where
  err : css_error
  ctx : Nat
  style : Option css_style
  alloc_req : Option Nat
  deriving DecidableEq, Repr

/-- Lines 165-167 of margin.c: `required_size = sizeof(opv)` plus
`sizeof(length) + sizeof(unit)` iff `(flags & FLAG_INHERIT) == false &&
value == MARGIN_SET`. -/
def margin_required_size (flags value : Nat) : Nat :=
  if flags &&& FLAG_INHERIT = 0 ∧ value = MARGIN_SET then
    sizeof_opv + sizeof_length + sizeof_unit
  else
    sizeof_opv

/-- Lines 163-185 of margin.c, shared by the three grammar branches: build
the header word, compute the required size, request the buffer (restoring
the cursor and propagating the error if allocation fails), and copy the
header followed, when the payload is present, by magnitude then unit. -/
def margin_emit (c : css_language) (op flags value : Nat) (length : css_fixed)
    (unit : Nat) (ctx orig_ctx : Nat) : parse_result :=
  let opv := buildOPV op flags value
  let required_size := margin_required_size flags value
  if c.sheet_alloc required_size = css_error.CSS_OK then
    { err := css_error.CSS_OK
      ctx := ctx
      style := some ⟨toBytes4 opv ++
        (if flags &&& FLAG_INHERIT = 0 ∧ value = MARGIN_SET then
          fixedBytes length ++ toBytes4 unit
        else [])⟩
      alloc_req := some required_size }
  else
    { err := c.sheet_alloc required_size
      ctx := orig_ctx
      style := none
      alloc_req := some required_size }

/-- Lines 118-186 of margin.c: `parse_margin_side`.  Peek one token; fail
`CSS_INVALID` on an empty stream; an identifier interned equal to `inherit`
sets `FLAG_INHERIT`, one interned equal to `auto` sets `MARGIN_AUTO`;
otherwise delegate to `parse_unit_specifier` with default unit `UNIT_PX`,
restoring the cursor and propagating its error on failure, and rejecting
angle/time/frequency unit classes with `CSS_INVALID`; finally emit the
instruction. -/
def parse_margin_side (c : css_language) (vector : List css_token) (ctx : Nat)
    (op : Nat) : parse_result :=
  let orig_ctx := ctx
  match parserutils_vector_peek vector ctx with
  | none => { err := css_error.CSS_INVALID, ctx := orig_ctx,
              style := none, alloc_req := none }
  | some token =>
    if token.type = css_token_type.CSS_TOKEN_IDENT ∧
        token.ilower = c.strings LangString.INHERIT then
      margin_emit c op FLAG_INHERIT 0 0 0
        (parserutils_vector_iterate vector ctx).2 orig_ctx
    else if token.type = css_token_type.CSS_TOKEN_IDENT ∧
        token.ilower = c.strings LangString.AUTO then
      margin_emit c op 0 MARGIN_AUTO 0 0
        (parserutils_vector_iterate vector ctx).2 orig_ctx
    else
      let r := c.parse_unit_specifier vector ctx UNIT_PX
      if r.1 ≠ css_error.CSS_OK then
        { err := r.1, ctx := orig_ctx, style := none, alloc_req := none }
      else if r.2.2.2 &&& UNIT_ANGLE ≠ 0 ∨ r.2.2.2 &&& UNIT_TIME ≠ 0 ∨
          r.2.2.2 &&& UNIT_FREQ ≠ 0 then
        { err := css_error.CSS_INVALID, ctx := orig_ctx,
          style := none, alloc_req := none }
      else
        margin_emit c op 0 MARGIN_SET r.2.2.1 r.2.2.2 r.2.1 orig_ctx

/-- Lines 97-102 of margin.c: `parse_margin_top`. -/
def parse_margin_top (c : css_language) (vector : List css_token)
    (ctx : Nat) : parse_result :=
  parse_margin_side c vector ctx CSS_PROP_MARGIN_TOP

/-- Lines 76-81 of margin.c: `parse_margin_right`. -/
def parse_margin_right (c : css_language) (vector : List css_token)
    (ctx : Nat) : parse_result :=
  parse_margin_side c vector ctx CSS_PROP_MARGIN_RIGHT

/-- Lines 33-39 of margin.c: `parse_margin_bottom`. -/
def parse_margin_bottom (c : css_language) (vector : List css_token)
    (ctx : Nat) : parse_result :=
  parse_margin_side c vector ctx CSS_PROP_MARGIN_BOTTOM

/-- Lines 55-60 of margin.c: `parse_margin_left`. -/
def parse_margin_left (c : css_language) (vector : List css_token)
    (ctx : Nat) : parse_result :=
  parse_margin_side c vector ctx CSS_PROP_MARGIN_LEFT

/-! ## Concrete environments used to exercise the theorems -/

/-- A concrete interning table: `inherit` is handle 100, `auto` is 101. -/
def testStrings : LangString → Nat
  | LangString.INHERIT => 100
  | LangString.AUTO => 101

/-- An allocator that always succeeds. -/
def allocAlways : Nat → css_error := fun _ => css_error.CSS_OK

/-- A unit sub-parser that reads one token as `10px` (fixed-point 640). -/
def unitPx : List css_token → Nat → Nat → css_error × Nat × css_fixed × Nat :=
  fun _ i _ => (css_error.CSS_OK, i + 1, 640, UNIT_PX)

/-- A unit sub-parser that reads one token as an angle dimension. -/
def unitAngle : List css_token → Nat → Nat → css_error × Nat × css_fixed × Nat :=
  fun _ i _ => (css_error.CSS_OK, i + 1, 5, UNIT_ANGLE)

/-- A unit sub-parser that rejects its input, cursor restored. -/
def unitReject : List css_token → Nat → Nat → css_error × Nat × css_fixed × Nat :=
  fun _ i _ => (css_error.CSS_INVALID, i, 0, 0)

/-- Environment whose unit sub-parser accepts a pixel length. -/
def langPx : css_language := ⟨testStrings, allocAlways, unitPx⟩

/-- Environment whose unit sub-parser accepts an angle dimension. -/
def langAngle : css_language := ⟨testStrings, allocAlways, unitAngle⟩

/-- Environment whose unit sub-parser rejects every input. -/
def langReject : css_language := ⟨testStrings, allocAlways, unitReject⟩

/-! ## Helper lemmas -/

theorem iterate_snd_of_peek_some {vector : List css_token} {ctx : Nat}
    {t : css_token} (h : parserutils_vector_peek vector ctx = some t) :
    (parserutils_vector_iterate vector ctx).2 = ctx + 1 := by
  unfold parserutils_vector_peek at h
  unfold parserutils_vector_iterate
  rw [h]

theorem buildOPV_lt (op flags value : Nat) : buildOPV op flags value < 2 ^ 32 := by
  unfold buildOPV
  have h1 : op % 1024 < 1024 := Nat.mod_lt _ (by norm_num)
  have h2 : flags % 256 < 256 := Nat.mod_lt _ (by norm_num)
  have h3 : value % 16384 < 16384 := Nat.mod_lt _ (by norm_num)
  omega

theorem getFlags_buildOPV (op flags value : Nat) :
    getFlags (buildOPV op flags value) = flags % 256 := by
  unfold getFlags buildOPV
  have h1 : op % 1024 < 1024 := Nat.mod_lt _ (by norm_num)
  have h2 : flags % 256 < 256 := Nat.mod_lt _ (by norm_num)
  omega

theorem getValue_buildOPV (op flags value : Nat) :
    getValue (buildOPV op flags value) = value % 16384 := by
  unfold getValue buildOPV
  have h1 : op % 1024 < 1024 := Nat.mod_lt _ (by norm_num)
  have h2 : flags % 256 < 256 := Nat.mod_lt _ (by norm_num)
  omega

theorem fromBytes4_toBytes4_append (x : Nat) (rest : List Nat)
    (hx : x < 2 ^ 32) : fromBytes4 (toBytes4 x ++ rest) = x := by
  unfold toBytes4
  simp only [List.cons_append, List.nil_append, fromBytes4]
  omega

theorem toBytes4_length (x : Nat) : (toBytes4 x).length = 4 := rfl

theorem fixedBytes_length (l : css_fixed) : (fixedBytes l).length = 4 := rfl

theorem isInherit_buildOPV_inherit (op value : Nat) :
    isInherit (buildOPV op FLAG_INHERIT value) = true := by
  unfold isInherit
  rw [getFlags_buildOPV]
  rfl

theorem isInherit_buildOPV_zero (op value : Nat) :
    isInherit (buildOPV op 0 value) = false := by
  unfold isInherit
  rw [getFlags_buildOPV]
  rfl

/-- `margin_emit` on allocator success: the instruction is written, the
cursor stays past the consumed tokens, and the single allocation request is
for `margin_required_size`. -/
theorem margin_emit_alloc_ok {c : css_language} {op flags value : Nat}
    {length : css_fixed} {unit ctx orig_ctx : Nat}
    (h : c.sheet_alloc (margin_required_size flags value) = css_error.CSS_OK) :
    margin_emit c op flags value length unit ctx orig_ctx =
      { err := css_error.CSS_OK
        ctx := ctx
        style := some ⟨toBytes4 (buildOPV op flags value) ++
          (if flags &&& FLAG_INHERIT = 0 ∧ value = MARGIN_SET then
            fixedBytes length ++ toBytes4 unit
          else [])⟩
        alloc_req := some (margin_required_size flags value) } := by
  unfold margin_emit
  rw [if_pos h]

/-- `margin_emit` on allocator failure: the cursor is restored, nothing is
written, and the allocator's error code is returned unchanged. -/
theorem margin_emit_alloc_fail {c : css_language} {op flags value : Nat}
    {length : css_fixed} {unit ctx orig_ctx : Nat}
    (h : c.sheet_alloc (margin_required_size flags value) ≠ css_error.CSS_OK) :
    margin_emit c op flags value length unit ctx orig_ctx =
      { err := c.sheet_alloc (margin_required_size flags value)
        ctx := orig_ctx
        style := none
        alloc_req := some (margin_required_size flags value) } := by
  unfold margin_emit
  rw [if_neg h]

/-- Branch reduction: empty stream. -/
theorem pms_peek_none {c : css_language} {vector : List css_token} {ctx : Nat}
    {op : Nat} (hp : parserutils_vector_peek vector ctx = none) :
    parse_margin_side c vector ctx op =
      { err := css_error.CSS_INVALID, ctx := ctx,
        style := none, alloc_req := none } := by
  unfold parse_margin_side
  rw [hp]

/-- Branch reduction: the `inherit` keyword branch. -/
theorem pms_inherit {c : css_language} {vector : List css_token} {ctx : Nat}
    {op : Nat} {token : css_token}
    (hp : parserutils_vector_peek vector ctx = some token)
    (h1 : token.type = css_token_type.CSS_TOKEN_IDENT ∧
      token.ilower = c.strings LangString.INHERIT) :
    parse_margin_side c vector ctx op =
      margin_emit c op FLAG_INHERIT 0 0 0 (ctx + 1) ctx := by
  unfold parse_margin_side
  rw [hp]
  simp only [if_pos h1, iterate_snd_of_peek_some hp]

/-- Branch reduction: the `auto` keyword branch. -/
theorem pms_auto {c : css_language} {vector : List css_token} {ctx : Nat}
    {op : Nat} {token : css_token}
    (hp : parserutils_vector_peek vector ctx = some token)
    (h1 : ¬(token.type = css_token_type.CSS_TOKEN_IDENT ∧
      token.ilower = c.strings LangString.INHERIT))
    (h2 : token.type = css_token_type.CSS_TOKEN_IDENT ∧
      token.ilower = c.strings LangString.AUTO) :
    parse_margin_side c vector ctx op =
      margin_emit c op 0 MARGIN_AUTO 0 0 (ctx + 1) ctx := by
  unfold parse_margin_side
  rw [hp]
  simp only [if_neg h1, if_pos h2, iterate_snd_of_peek_some hp]

/-- Branch reduction: the unit sub-parser fails, its error is propagated. -/
theorem pms_unit_fail {c : css_language} {vector : List css_token} {ctx : Nat}
    {op : Nat} {token : css_token}
    (hp : parserutils_vector_peek vector ctx = some token)
    (h1 : ¬(token.type = css_token_type.CSS_TOKEN_IDENT ∧
      token.ilower = c.strings LangString.INHERIT))
    (h2 : ¬(token.type = css_token_type.CSS_TOKEN_IDENT ∧
      token.ilower = c.strings LangString.AUTO))
    (he : (c.parse_unit_specifier vector ctx UNIT_PX).1 ≠ css_error.CSS_OK) :
    parse_margin_side c vector ctx op =
      { err := (c.parse_unit_specifier vector ctx UNIT_PX).1, ctx := ctx,
        style := none, alloc_req := none } := by
  unfold parse_margin_side
  rw [hp]
  simp only [if_neg h1, if_neg h2, if_pos he]

/-- Branch reduction: the unit sub-parser succeeds but its unit class
intersects angle/time/frequency. -/
theorem pms_unit_bad {c : css_language} {vector : List css_token} {ctx : Nat}
    {op : Nat} {token : css_token}
    (hp : parserutils_vector_peek vector ctx = some token)
    (h1 : ¬(token.type = css_token_type.CSS_TOKEN_IDENT ∧
      token.ilower = c.strings LangString.INHERIT))
    (h2 : ¬(token.type = css_token_type.CSS_TOKEN_IDENT ∧
      token.ilower = c.strings LangString.AUTO))
    (he : (c.parse_unit_specifier vector ctx UNIT_PX).1 = css_error.CSS_OK)
    (hu : (c.parse_unit_specifier vector ctx UNIT_PX).2.2.2 &&& UNIT_ANGLE ≠ 0 ∨
      (c.parse_unit_specifier vector ctx UNIT_PX).2.2.2 &&& UNIT_TIME ≠ 0 ∨
      (c.parse_unit_specifier vector ctx UNIT_PX).2.2.2 &&& UNIT_FREQ ≠ 0) :
    parse_margin_side c vector ctx op =
      { err := css_error.CSS_INVALID, ctx := ctx,
        style := none, alloc_req := none } := by
  unfold parse_margin_side
  rw [hp]
  simp only [if_neg h1, if_neg h2, he, if_pos hu]
  simp

/-- Branch reduction: the unit sub-parser succeeds with a spatial unit. -/
theorem pms_unit_ok {c : css_language} {vector : List css_token} {ctx : Nat}
    {op : Nat} {token : css_token}
    (hp : parserutils_vector_peek vector ctx = some token)
    (h1 : ¬(token.type = css_token_type.CSS_TOKEN_IDENT ∧
      token.ilower = c.strings LangString.INHERIT))
    (h2 : ¬(token.type = css_token_type.CSS_TOKEN_IDENT ∧
      token.ilower = c.strings LangString.AUTO))
    (he : (c.parse_unit_specifier vector ctx UNIT_PX).1 = css_error.CSS_OK)
    (hu : ¬((c.parse_unit_specifier vector ctx UNIT_PX).2.2.2 &&& UNIT_ANGLE ≠ 0 ∨
      (c.parse_unit_specifier vector ctx UNIT_PX).2.2.2 &&& UNIT_TIME ≠ 0 ∨
      (c.parse_unit_specifier vector ctx UNIT_PX).2.2.2 &&& UNIT_FREQ ≠ 0)) :
    parse_margin_side c vector ctx op =
      margin_emit c op 0 MARGIN_SET
        (c.parse_unit_specifier vector ctx UNIT_PX).2.2.1
        (c.parse_unit_specifier vector ctx UNIT_PX).2.2.2
        (c.parse_unit_specifier vector ctx UNIT_PX).2.1 ctx := by
  unfold parse_margin_side
  rw [hp]
  simp only [if_neg h1, if_neg h2, he, if_neg hu]
  simp

/-- On a successful emit, the style holds a buffer whose length equals the
single allocation request, the buffer starts with the packed header word,
and its length is 12 or 4 according to the payload condition. -/
theorem margin_emit_ok_spec {c : css_language} {op flags value : Nat}
    {length : css_fixed} {unit ctx orig_ctx : Nat}
    (h : (margin_emit c op flags value length unit ctx orig_ctx).err =
      css_error.CSS_OK) :
    ∃ s, (margin_emit c op flags value length unit ctx orig_ctx).style =
        some s ∧
      (margin_emit c op flags value length unit ctx orig_ctx).alloc_req =
        some s.bytecode.length ∧
      fromBytes4 s.bytecode = buildOPV op flags value ∧
      s.bytecode.length =
        (if flags &&& FLAG_INHERIT = 0 ∧ value = MARGIN_SET then 12 else 4) := by
  by_cases ha : c.sheet_alloc (margin_required_size flags value) =
      css_error.CSS_OK
  · rw [margin_emit_alloc_ok ha] at h ⊢
    refine ⟨_, rfl, ?_, ?_, ?_⟩
    · by_cases hc : flags &&& FLAG_INHERIT = 0 ∧ value = MARGIN_SET
      · simp only [if_pos hc, margin_required_size, List.length_append,
          toBytes4_length, fixedBytes_length]
        rfl
      · simp only [if_neg hc, margin_required_size, List.length_append,
          toBytes4_length, List.length_nil]
        rfl
    · exact fromBytes4_toBytes4_append _ _ (buildOPV_lt op flags value)
    · by_cases hc : flags &&& FLAG_INHERIT = 0 ∧ value = MARGIN_SET
      · simp only [if_pos hc, List.length_append, toBytes4_length,
          fixedBytes_length]
      · simp only [if_neg hc, List.length_append, toBytes4_length,
          List.length_nil]
  · rw [margin_emit_alloc_fail ha] at h
    exact absurd h ha

/-! ## Claims -/

/-- C1: for every token vector, starting position and property opcode, if
`parse_margin_side` returns a failure (any code other than `CSS_OK`), the
iteration context after the call equals its value before the call — every
failure path restores the cursor to the entry save-point. -/
theorem parse_margin_side_failure_restores_ctx (c : css_language)
    (vector : List css_token) (ctx op : Nat)
    (h : (parse_margin_side c vector ctx op).err ≠ css_error.CSS_OK) :
    (parse_margin_side c vector ctx op).ctx = ctx := by
  cases hp : parserutils_vector_peek vector ctx with
  | none => rw [pms_peek_none hp]
  | some token =>
    by_cases h1 : token.type = css_token_type.CSS_TOKEN_IDENT ∧
        token.ilower = c.strings LangString.INHERIT
    · rw [pms_inherit hp h1] at h ⊢
      by_cases ha : c.sheet_alloc (margin_required_size FLAG_INHERIT 0) =
          css_error.CSS_OK
      · rw [margin_emit_alloc_ok ha] at h
        exact absurd rfl h
      · rw [margin_emit_alloc_fail ha]
    · by_cases h2 : token.type = css_token_type.CSS_TOKEN_IDENT ∧
          token.ilower = c.strings LangString.AUTO
      · rw [pms_auto hp h1 h2] at h ⊢
        by_cases ha : c.sheet_alloc (margin_required_size 0 MARGIN_AUTO) =
            css_error.CSS_OK
        · rw [margin_emit_alloc_ok ha] at h
          exact absurd rfl h
        · rw [margin_emit_alloc_fail ha]
      · by_cases he : (c.parse_unit_specifier vector ctx UNIT_PX).1 =
            css_error.CSS_OK
        · by_cases hu : (c.parse_unit_specifier vector ctx UNIT_PX).2.2.2 &&&
              UNIT_ANGLE ≠ 0 ∨
              (c.parse_unit_specifier vector ctx UNIT_PX).2.2.2 &&&
              UNIT_TIME ≠ 0 ∨
              (c.parse_unit_specifier vector ctx UNIT_PX).2.2.2 &&&
              UNIT_FREQ ≠ 0
          · rw [pms_unit_bad hp h1 h2 he hu]
          · rw [pms_unit_ok hp h1 h2 he hu] at h ⊢
            by_cases ha : c.sheet_alloc (margin_required_size 0 MARGIN_SET) =
                css_error.CSS_OK
            · rw [margin_emit_alloc_ok ha] at h
              exact absurd rfl h
            · rw [margin_emit_alloc_fail ha]
        · rw [pms_unit_fail hp h1 h2 he]

/-- C1 witness: on the empty vector the parse fails and the cursor stays 0. -/
theorem parse_margin_side_failure_restores_ctx_witness :
    (parse_margin_side langPx [] 0 CSS_PROP_MARGIN_TOP).err ≠
      css_error.CSS_OK ∧
    (parse_margin_side langPx [] 0 CSS_PROP_MARGIN_TOP).ctx = 0 :=
  ⟨by decide,
    parse_margin_side_failure_restores_ctx langPx [] 0 CSS_PROP_MARGIN_TOP
      (by decide)⟩

/-- C7: when no token is available at the current position,
`parse_margin_side` fails with `CSS_INVALID` and the cursor is unchanged
(and the result location is never written). -/
theorem parse_margin_side_empty_stream (c : css_language)
    (vector : List css_token) (ctx op : Nat)
    (h : parserutils_vector_peek vector ctx = none) :
    (parse_margin_side c vector ctx op).err = css_error.CSS_INVALID ∧
    (parse_margin_side c vector ctx op).ctx = ctx := by
  rw [pms_peek_none h]
  exact ⟨rfl, rfl⟩

/-- C7 witness: the empty vector at position 0. -/
theorem parse_margin_side_empty_stream_witness :
    (parse_margin_side langPx [] 0 CSS_PROP_MARGIN_LEFT).err =
      css_error.CSS_INVALID ∧
    (parse_margin_side langPx [] 0 CSS_PROP_MARGIN_LEFT).ctx = 0 :=
  parse_margin_side_empty_stream langPx [] 0 CSS_PROP_MARGIN_LEFT rfl

/-- C8: parsing is deterministic — two calls on the same token sequence,
starting position, opcode and environment yield the same error code, the
same final cursor and byte-identical output. -/
theorem parse_margin_side_deterministic (c c2 : css_language)
    (vector vector2 : List css_token) (ctx ctx2 op op2 : Nat)
    (hc : c = c2) (hv : vector = vector2) (hctx : ctx = ctx2)
    (hop : op = op2) :
    parse_margin_side c vector ctx op =
      parse_margin_side c2 vector2 ctx2 op2 := by
  rw [hc, hv, hctx, hop]

/-- C8 witness: two identical calls on a one-token vector agree. -/
theorem parse_margin_side_deterministic_witness :
    parse_margin_side langPx [⟨css_token_type.CSS_TOKEN_IDENT, 100⟩] 0
        CSS_PROP_MARGIN_TOP =
      parse_margin_side langPx [⟨css_token_type.CSS_TOKEN_IDENT, 100⟩] 0
        CSS_PROP_MARGIN_TOP :=
  parse_margin_side_deterministic langPx langPx
    [⟨css_token_type.CSS_TOKEN_IDENT, 100⟩]
    [⟨css_token_type.CSS_TOKEN_IDENT, 100⟩] 0 0 CSS_PROP_MARGIN_TOP
    CSS_PROP_MARGIN_TOP rfl rfl rfl rfl

/-- C9: each of the four public entry points equals `parse_margin_side`
applied with the corresponding property opcode, on every input. -/
theorem margin_wrappers_eq_side (c : css_language) (vector : List css_token)
    (ctx : Nat) :
    parse_margin_top c vector ctx =
      parse_margin_side c vector ctx CSS_PROP_MARGIN_TOP ∧
    parse_margin_right c vector ctx =
      parse_margin_side c vector ctx CSS_PROP_MARGIN_RIGHT ∧
    parse_margin_bottom c vector ctx =
      parse_margin_side c vector ctx CSS_PROP_MARGIN_BOTTOM ∧
    parse_margin_left c vector ctx =
      parse_margin_side c vector ctx CSS_PROP_MARGIN_LEFT :=
  ⟨rfl, rfl, rfl, rfl⟩

/-- C2: for every successful call, the size requested from the allocator
equals the header size plus the payload size exactly when the inherit flag
is unset and the value-tag is `MARGIN_SET`, never any other value, and the
bytes written exactly fill that size. -/
theorem parse_margin_side_size_consistency (c : css_language)
    (vector : List css_token) (ctx op : Nat)
    (h : (parse_margin_side c vector ctx op).err = css_error.CSS_OK) :
    ∃ s, (parse_margin_side c vector ctx op).style = some s ∧
      (parse_margin_side c vector ctx op).alloc_req =
        some s.bytecode.length ∧
      (s.bytecode.length = sizeof_opv ∨
        s.bytecode.length = sizeof_opv + (sizeof_length + sizeof_unit)) ∧
      (s.bytecode.length = sizeof_opv + (sizeof_length + sizeof_unit) ↔
        isInherit (fromBytes4 s.bytecode) = false ∧
        getValue (fromBytes4 s.bytecode) = MARGIN_SET) := by
  cases hp : parserutils_vector_peek vector ctx with
  | none =>
    rw [pms_peek_none hp] at h
    exact css_error.noConfusion h
  | some token =>
    by_cases h1 : token.type = css_token_type.CSS_TOKEN_IDENT ∧
        token.ilower = c.strings LangString.INHERIT
    · rw [pms_inherit hp h1] at h ⊢
      obtain ⟨s, hs, hreq, hb, hlen⟩ := margin_emit_ok_spec h
      rw [if_neg (by decide)] at hlen
      refine ⟨s, hs, hreq, Or.inl hlen, iff_of_false ?_ ?_⟩
      · rw [hlen]; decide
      · rintro ⟨hf, -⟩
        rw [hb, isInherit_buildOPV_inherit] at hf
        exact absurd hf (by decide)
    · by_cases h2 : token.type = css_token_type.CSS_TOKEN_IDENT ∧
          token.ilower = c.strings LangString.AUTO
      · rw [pms_auto hp h1 h2] at h ⊢
        obtain ⟨s, hs, hreq, hb, hlen⟩ := margin_emit_ok_spec h
        rw [if_neg (by decide)] at hlen
        refine ⟨s, hs, hreq, Or.inl hlen, iff_of_false ?_ ?_⟩
        · rw [hlen]; decide
        · rintro ⟨-, hv⟩
          rw [hb, getValue_buildOPV] at hv
          exact absurd hv (by decide)
      · by_cases he : (c.parse_unit_specifier vector ctx UNIT_PX).1 =
            css_error.CSS_OK
        · by_cases hu : (c.parse_unit_specifier vector ctx UNIT_PX).2.2.2 &&&
              UNIT_ANGLE ≠ 0 ∨
              (c.parse_unit_specifier vector ctx UNIT_PX).2.2.2 &&&
              UNIT_TIME ≠ 0 ∨
              (c.parse_unit_specifier vector ctx UNIT_PX).2.2.2 &&&
              UNIT_FREQ ≠ 0
          · rw [pms_unit_bad hp h1 h2 he hu] at h
            exact css_error.noConfusion h
          · rw [pms_unit_ok hp h1 h2 he hu] at h ⊢
            obtain ⟨s, hs, hreq, hb, hlen⟩ := margin_emit_ok_spec h
            rw [if_pos (by decide)] at hlen
            refine ⟨s, hs, hreq, Or.inr hlen, iff_of_true hlen ?_⟩
            constructor
            · rw [hb, isInherit_buildOPV_zero]
            · rw [hb, getValue_buildOPV]
              decide
        · rw [pms_unit_fail hp h1 h2 he] at h
          exact absurd h he

/-- C2 witness: parsing `10px` succeeds and emits a 12-byte instruction. -/
theorem parse_margin_side_size_consistency_witness :
    (parse_margin_side langPx [⟨css_token_type.CSS_TOKEN_DIMENSION, 7⟩] 0
      CSS_PROP_MARGIN_TOP).err = css_error.CSS_OK ∧
    ∃ s, (parse_margin_side langPx [⟨css_token_type.CSS_TOKEN_DIMENSION, 7⟩]
        0 CSS_PROP_MARGIN_TOP).style = some s ∧
      (parse_margin_side langPx [⟨css_token_type.CSS_TOKEN_DIMENSION, 7⟩] 0
        CSS_PROP_MARGIN_TOP).alloc_req = some s.bytecode.length ∧
      (s.bytecode.length = sizeof_opv ∨
        s.bytecode.length = sizeof_opv + (sizeof_length + sizeof_unit)) ∧
      (s.bytecode.length = sizeof_opv + (sizeof_length + sizeof_unit) ↔
        isInherit (fromBytes4 s.bytecode) = false ∧
        getValue (fromBytes4 s.bytecode) = MARGIN_SET) :=
  ⟨by decide,
    parse_margin_side_size_consistency langPx
      [⟨css_token_type.CSS_TOKEN_DIMENSION, 7⟩] 0 CSS_PROP_MARGIN_TOP
      (by decide)⟩

/-- C3: whenever the unit sub-parser succeeds on the delegated input but
reports a unit class intersecting angle/time/frequency, `parse_margin_side`
returns `CSS_INVALID` with the cursor restored to its entry value and
nothing written. -/
theorem parse_margin_side_rejects_nonspatial (c : css_language)
    (vector : List css_token) (ctx op : Nat) (token : css_token)
    (hp : parserutils_vector_peek vector ctx = some token)
    (h1 : ¬(token.type = css_token_type.CSS_TOKEN_IDENT ∧
      token.ilower = c.strings LangString.INHERIT))
    (h2 : ¬(token.type = css_token_type.CSS_TOKEN_IDENT ∧
      token.ilower = c.strings LangString.AUTO))
    (he : (c.parse_unit_specifier vector ctx UNIT_PX).1 = css_error.CSS_OK)
    (hu : (c.parse_unit_specifier vector ctx UNIT_PX).2.2.2 &&&
        UNIT_ANGLE ≠ 0 ∨
      (c.parse_unit_specifier vector ctx UNIT_PX).2.2.2 &&& UNIT_TIME ≠ 0 ∨
      (c.parse_unit_specifier vector ctx UNIT_PX).2.2.2 &&& UNIT_FREQ ≠ 0) :
    (parse_margin_side c vector ctx op).err = css_error.CSS_INVALID ∧
    (parse_margin_side c vector ctx op).ctx = ctx ∧
    (parse_margin_side c vector ctx op).style = none := by
  rw [pms_unit_bad hp h1 h2 he hu]
  exact ⟨rfl, rfl, rfl⟩

/-- C3 witness: a `5deg` dimension is accepted by the unit sub-parser but
rejected by `parse_margin_side`. -/
theorem parse_margin_side_rejects_nonspatial_witness :
    (langAngle.parse_unit_specifier
      [⟨css_token_type.CSS_TOKEN_DIMENSION, 7⟩] 0 UNIT_PX).1 =
      css_error.CSS_OK ∧
    (parse_margin_side langAngle [⟨css_token_type.CSS_TOKEN_DIMENSION, 7⟩] 0
      CSS_PROP_MARGIN_TOP).err = css_error.CSS_INVALID ∧
    (parse_margin_side langAngle [⟨css_token_type.CSS_TOKEN_DIMENSION, 7⟩] 0
      CSS_PROP_MARGIN_TOP).ctx = 0 ∧
    (parse_margin_side langAngle [⟨css_token_type.CSS_TOKEN_DIMENSION, 7⟩] 0
      CSS_PROP_MARGIN_TOP).style = none :=
  ⟨rfl,
    parse_margin_side_rejects_nonspatial langAngle
      [⟨css_token_type.CSS_TOKEN_DIMENSION, 7⟩] 0 CSS_PROP_MARGIN_TOP
      ⟨css_token_type.CSS_TOKEN_DIMENSION, 7⟩ rfl (by decide) (by decide)
      rfl (by decide)⟩

/-- C4: the three grammar branches are mutually exclusive in the output: a
successful instruction with the inherit flag set has no payload (its buffer
is exactly the header), and any buffer longer than the header comes from the
quantity branch (inherit flag unset, value-tag `MARGIN_SET`). -/
theorem parse_margin_side_branch_exclusive (c : css_language)
    (vector : List css_token) (ctx op : Nat)
    (h : (parse_margin_side c vector ctx op).err = css_error.CSS_OK) :
    ∃ s, (parse_margin_side c vector ctx op).style = some s ∧
      (isInherit (fromBytes4 s.bytecode) = true →
        s.bytecode.length = sizeof_opv) ∧
      (s.bytecode.length ≠ sizeof_opv →
        isInherit (fromBytes4 s.bytecode) = false ∧
        getValue (fromBytes4 s.bytecode) = MARGIN_SET) := by
  cases hp : parserutils_vector_peek vector ctx with
  | none =>
    rw [pms_peek_none hp] at h
    exact css_error.noConfusion h
  | some token =>
    by_cases h1 : token.type = css_token_type.CSS_TOKEN_IDENT ∧
        token.ilower = c.strings LangString.INHERIT
    · rw [pms_inherit hp h1] at h ⊢
      obtain ⟨s, hs, -, hb, hlen⟩ := margin_emit_ok_spec h
      rw [if_neg (by decide)] at hlen
      exact ⟨s, hs, fun _ => hlen, fun hne => absurd hlen hne⟩
    · by_cases h2 : token.type = css_token_type.CSS_TOKEN_IDENT ∧
          token.ilower = c.strings LangString.AUTO
      · rw [pms_auto hp h1 h2] at h ⊢
        obtain ⟨s, hs, -, hb, hlen⟩ := margin_emit_ok_spec h
        rw [if_neg (by decide)] at hlen
        exact ⟨s, hs, fun _ => hlen, fun hne => absurd hlen hne⟩
      · by_cases he : (c.parse_unit_specifier vector ctx UNIT_PX).1 =
            css_error.CSS_OK
        · by_cases hu : (c.parse_unit_specifier vector ctx UNIT_PX).2.2.2 &&&
              UNIT_ANGLE ≠ 0 ∨
              (c.parse_unit_specifier vector ctx UNIT_PX).2.2.2 &&&
              UNIT_TIME ≠ 0 ∨
              (c.parse_unit_specifier vector ctx UNIT_PX).2.2.2 &&&
              UNIT_FREQ ≠ 0
          · rw [pms_unit_bad hp h1 h2 he hu] at h
            exact css_error.noConfusion h
          · rw [pms_unit_ok hp h1 h2 he hu] at h ⊢
            obtain ⟨s, hs, -, hb, hlen⟩ := margin_emit_ok_spec h
            rw [if_pos (by decide)] at hlen
            refine ⟨s, hs, fun hf => ?_, fun _ => ⟨?_, ?_⟩⟩
            · rw [hb, isInherit_buildOPV_zero] at hf
              exact absurd hf (by decide)
            · rw [hb, isInherit_buildOPV_zero]
            · rw [hb, getValue_buildOPV]
              decide
        · rw [pms_unit_fail hp h1 h2 he] at h
          exact absurd h he

/-- C4 witness: parsing `inherit` yields a header-only instruction with the
inherit flag set. -/
theorem parse_margin_side_branch_exclusive_witness :
    (parse_margin_side langPx [⟨css_token_type.CSS_TOKEN_IDENT, 100⟩] 0
      CSS_PROP_MARGIN_BOTTOM).err = css_error.CSS_OK ∧
    ∃ s, (parse_margin_side langPx [⟨css_token_type.CSS_TOKEN_IDENT, 100⟩] 0
        CSS_PROP_MARGIN_BOTTOM).style = some s ∧
      (isInherit (fromBytes4 s.bytecode) = true →
        s.bytecode.length = sizeof_opv) ∧
      (s.bytecode.length ≠ sizeof_opv →
        isInherit (fromBytes4 s.bytecode) = false ∧
        getValue (fromBytes4 s.bytecode) = MARGIN_SET) :=
  ⟨by decide,
    parse_margin_side_branch_exclusive langPx
      [⟨css_token_type.CSS_TOKEN_IDENT, 100⟩] 0 CSS_PROP_MARGIN_BOTTOM
      (by decide)⟩

/-- With an allocator that fails only by exhaustion, an emit never returns
`CSS_INVALID`. -/
theorem margin_emit_err_not_invalid {c : css_language} {op flags value : Nat}
    {length : css_fixed} {unit ctx orig_ctx : Nat}
    (hA : ∀ n, c.sheet_alloc n = css_error.CSS_OK ∨
      c.sheet_alloc n = css_error.CSS_NOMEM) :
    (margin_emit c op flags value length unit ctx orig_ctx).err ≠
      css_error.CSS_INVALID := by
  by_cases ha : c.sheet_alloc (margin_required_size flags value) =
      css_error.CSS_OK
  · rw [margin_emit_alloc_ok ha]
    exact fun hh => css_error.noConfusion hh
  · rw [margin_emit_alloc_fail ha]
    rcases hA (margin_required_size flags value) with hn | hn
    · exact absurd hn ha
    · rw [hn]
      exact fun hh => css_error.noConfusion hh

/-- C5: provided the unit sub-parser and the allocator only produce the
documented error kinds, every call of `parse_margin_side` returns `CSS_OK`,
`CSS_INVALID` or `CSS_NOMEM`, and a failure of the unit sub-parser is
propagated to the caller unchanged. -/
theorem parse_margin_side_error_kinds (c : css_language)
    (vector : List css_token) (ctx op : Nat)
    (hU : ∀ v i d, (c.parse_unit_specifier v i d).1 = css_error.CSS_OK ∨
      (c.parse_unit_specifier v i d).1 = css_error.CSS_INVALID ∨
      (c.parse_unit_specifier v i d).1 = css_error.CSS_NOMEM)
    (hA : ∀ n, c.sheet_alloc n = css_error.CSS_OK ∨
      c.sheet_alloc n = css_error.CSS_NOMEM) :
    ((parse_margin_side c vector ctx op).err = css_error.CSS_OK ∨
      (parse_margin_side c vector ctx op).err = css_error.CSS_INVALID ∨
      (parse_margin_side c vector ctx op).err = css_error.CSS_NOMEM) ∧
    (∀ token, parserutils_vector_peek vector ctx = some token →
      ¬(token.type = css_token_type.CSS_TOKEN_IDENT ∧
        token.ilower = c.strings LangString.INHERIT) →
      ¬(token.type = css_token_type.CSS_TOKEN_IDENT ∧
        token.ilower = c.strings LangString.AUTO) →
      (c.parse_unit_specifier vector ctx UNIT_PX).1 ≠ css_error.CSS_OK →
      (parse_margin_side c vector ctx op).err =
        (c.parse_unit_specifier vector ctx UNIT_PX).1) := by
  constructor
  · have emit : ∀ (flags value : Nat) (length : css_fixed)
        (unit ctx2 octx : Nat),
        (margin_emit c op flags value length unit ctx2 octx).err =
          css_error.CSS_OK ∨
        (margin_emit c op flags value length unit ctx2 octx).err =
          css_error.CSS_INVALID ∨
        (margin_emit c op flags value length unit ctx2 octx).err =
          css_error.CSS_NOMEM := by
      intro flags value length unit ctx2 octx
      by_cases ha : c.sheet_alloc (margin_required_size flags value) =
          css_error.CSS_OK
      · rw [margin_emit_alloc_ok ha]
        exact Or.inl rfl
      · rw [margin_emit_alloc_fail ha]
        rcases hA (margin_required_size flags value) with hn | hn
        · exact absurd hn ha
        · rw [hn]
          exact Or.inr (Or.inr rfl)
    cases hp : parserutils_vector_peek vector ctx with
    | none =>
      rw [pms_peek_none hp]
      exact Or.inr (Or.inl rfl)
    | some token =>
      by_cases h1 : token.type = css_token_type.CSS_TOKEN_IDENT ∧
          token.ilower = c.strings LangString.INHERIT
      · rw [pms_inherit hp h1]
        exact emit _ _ _ _ _ _
      · by_cases h2 : token.type = css_token_type.CSS_TOKEN_IDENT ∧
            token.ilower = c.strings LangString.AUTO
        · rw [pms_auto hp h1 h2]
          exact emit _ _ _ _ _ _
        · by_cases he : (c.parse_unit_specifier vector ctx UNIT_PX).1 =
              css_error.CSS_OK
          · by_cases hu : (c.parse_unit_specifier vector ctx
                UNIT_PX).2.2.2 &&& UNIT_ANGLE ≠ 0 ∨
                (c.parse_unit_specifier vector ctx UNIT_PX).2.2.2 &&&
                UNIT_TIME ≠ 0 ∨
                (c.parse_unit_specifier vector ctx UNIT_PX).2.2.2 &&&
                UNIT_FREQ ≠ 0
            · rw [pms_unit_bad hp h1 h2 he hu]
              exact Or.inr (Or.inl rfl)
            · rw [pms_unit_ok hp h1 h2 he hu]
              exact emit _ _ _ _ _ _
          · rw [pms_unit_fail hp h1 h2 he]
            rcases hU vector ctx UNIT_PX with hk | hk | hk
            · exact absurd hk he
            · exact Or.inr (Or.inl hk)
            · exact Or.inr (Or.inr hk)
  · intro token hp h1 h2 hne
    rw [pms_unit_fail hp h1 h2 hne]

/-- C5 witness: with a rejecting unit sub-parser a dimension token fails
with one of the two documented error kinds. -/
theorem parse_margin_side_error_kinds_witness :
    (parse_margin_side langReject [⟨css_token_type.CSS_TOKEN_DIMENSION, 7⟩]
      0 CSS_PROP_MARGIN_RIGHT).err = css_error.CSS_OK ∨
    (parse_margin_side langReject [⟨css_token_type.CSS_TOKEN_DIMENSION, 7⟩]
      0 CSS_PROP_MARGIN_RIGHT).err = css_error.CSS_INVALID ∨
    (parse_margin_side langReject [⟨css_token_type.CSS_TOKEN_DIMENSION, 7⟩]
      0 CSS_PROP_MARGIN_RIGHT).err = css_error.CSS_NOMEM :=
  (parse_margin_side_error_kinds langReject
    [⟨css_token_type.CSS_TOKEN_DIMENSION, 7⟩] 0 CSS_PROP_MARGIN_RIGHT
    (fun _ _ _ => Or.inr (Or.inl rfl)) (fun _ => Or.inl rfl)).1

/-- C6: when the first peeked token is an identifier interned equal to
`inherit` and allocation succeeds, the parse succeeds, consumes exactly one
token, and emits a header-only instruction with the inherit flag set. -/
theorem parse_margin_side_inherit_ok (c : css_language)
    (vector : List css_token) (ctx op : Nat) (token : css_token)
    (hp : parserutils_vector_peek vector ctx = some token)
    (ht : token.type = css_token_type.CSS_TOKEN_IDENT)
    (hi : token.ilower = c.strings LangString.INHERIT)
    (ha : c.sheet_alloc sizeof_opv = css_error.CSS_OK) :
    (parse_margin_side c vector ctx op).err = css_error.CSS_OK ∧
    (parse_margin_side c vector ctx op).ctx = ctx + 1 ∧
    ∃ s, (parse_margin_side c vector ctx op).style = some s ∧
      s.bytecode.length = sizeof_opv ∧
      isInherit (fromBytes4 s.bytecode) = true := by
  rw [pms_inherit hp ⟨ht, hi⟩]
  have ha2 : c.sheet_alloc (margin_required_size FLAG_INHERIT 0) =
      css_error.CSS_OK := by
    have hreq : margin_required_size FLAG_INHERIT 0 = sizeof_opv := by decide
    rw [hreq]
    exact ha
  rw [margin_emit_alloc_ok ha2]
  refine ⟨rfl, rfl, _, rfl, ?_, ?_⟩
  · rw [if_neg (by decide)]
    simp [toBytes4_length, sizeof_opv]
  · rw [if_neg (by decide), fromBytes4_toBytes4_append _ _
      (buildOPV_lt op FLAG_INHERIT 0)]
    exact isInherit_buildOPV_inherit op 0

/-- C6 witness: the one-token vector `[IDENT inherit]`. -/
theorem parse_margin_side_inherit_ok_witness :
    (parse_margin_side langPx [⟨css_token_type.CSS_TOKEN_IDENT, 100⟩] 0
      CSS_PROP_MARGIN_TOP).err = css_error.CSS_OK ∧
    (parse_margin_side langPx [⟨css_token_type.CSS_TOKEN_IDENT, 100⟩] 0
      CSS_PROP_MARGIN_TOP).ctx = 0 + 1 ∧
    ∃ s, (parse_margin_side langPx [⟨css_token_type.CSS_TOKEN_IDENT, 100⟩] 0
        CSS_PROP_MARGIN_TOP).style = some s ∧
      s.bytecode.length = sizeof_opv ∧
      isInherit (fromBytes4 s.bytecode) = true :=
  parse_margin_side_inherit_ok langPx
    [⟨css_token_type.CSS_TOKEN_IDENT, 100⟩] 0 CSS_PROP_MARGIN_TOP
    ⟨css_token_type.CSS_TOKEN_IDENT, 100⟩ rfl rfl rfl rfl

/-- C10: with an allocator that fails only by exhaustion, every call that
returns `CSS_INVALID` never writes the result location and never attempts
an allocation. -/
theorem parse_margin_side_invalid_no_write (c : css_language)
    (vector : List css_token) (ctx op : Nat)
    (hA : ∀ n, c.sheet_alloc n = css_error.CSS_OK ∨
      c.sheet_alloc n = css_error.CSS_NOMEM)
    (h : (parse_margin_side c vector ctx op).err = css_error.CSS_INVALID) :
    (parse_margin_side c vector ctx op).style = none ∧
    (parse_margin_side c vector ctx op).alloc_req = none := by
  cases hp : parserutils_vector_peek vector ctx with
  | none =>
    rw [pms_peek_none hp]
    exact ⟨rfl, rfl⟩
  | some token =>
    by_cases h1 : token.type = css_token_type.CSS_TOKEN_IDENT ∧
        token.ilower = c.strings LangString.INHERIT
    · rw [pms_inherit hp h1] at h
      exact absurd h (margin_emit_err_not_invalid hA)
    · by_cases h2 : token.type = css_token_type.CSS_TOKEN_IDENT ∧
          token.ilower = c.strings LangString.AUTO
      · rw [pms_auto hp h1 h2] at h
        exact absurd h (margin_emit_err_not_invalid hA)
      · by_cases he : (c.parse_unit_specifier vector ctx UNIT_PX).1 =
            css_error.CSS_OK
        · by_cases hu : (c.parse_unit_specifier vector ctx UNIT_PX).2.2.2 &&&
              UNIT_ANGLE ≠ 0 ∨
              (c.parse_unit_specifier vector ctx UNIT_PX).2.2.2 &&&
              UNIT_TIME ≠ 0 ∨
              (c.parse_unit_specifier vector ctx UNIT_PX).2.2.2 &&&
              UNIT_FREQ ≠ 0
          · rw [pms_unit_bad hp h1 h2 he hu]
            exact ⟨rfl, rfl⟩
          · rw [pms_unit_ok hp h1 h2 he hu] at h
            exact absurd h (margin_emit_err_not_invalid hA)
        · rw [pms_unit_fail hp h1 h2 he]
          exact ⟨rfl, rfl⟩

/-- C10 witness: a rejected dimension token leaves the result location
unwritten and makes no allocation request. -/
theorem parse_margin_side_invalid_no_write_witness :
    (parse_margin_side langReject [⟨css_token_type.CSS_TOKEN_DIMENSION, 7⟩]
      0 CSS_PROP_MARGIN_LEFT).style = none ∧
    (parse_margin_side langReject [⟨css_token_type.CSS_TOKEN_DIMENSION, 7⟩]
      0 CSS_PROP_MARGIN_LEFT).alloc_req = none :=
  parse_margin_side_invalid_no_write langReject
    [⟨css_token_type.CSS_TOKEN_DIMENSION, 7⟩] 0 CSS_PROP_MARGIN_LEFT
    (fun _ => Or.inl rfl) (by decide)
